import Mathlib

/-!
Shallow embedding of the CSS selector builder of `src/05-objects-tasks.js`
(class `BuilderHelper` and the `cssSelectorBuilder` facade object).

Modelling conventions:
* JS strings are Lean `String`s; string mutation (`this.res += s`) becomes
  explicit state passing on a `BuilderHelper` record.
* A JS method that may `throw` is embedded as a function returning
  `BuilderHelper × Option String`: the first component is the object's state
  after the call (unchanged when an exception escaped), the second is
  `some msg` when an `Error` with message `msg` was thrown, `none` otherwise.
* The facade's mutable own-property `res` (written only by its `combine`)
  is threaded as an explicit `Option String` state, `none` standing for the
  JS `undefined` of a property that was never assigned.
* The source method named `class` is embedded as `cls` (`class` is a Lean
  keyword) and `attr` keeps its source name; its kind tag in the source's
  rank table is the string `'attribute'`.
-/

namespace CssSelector

/-- The six fragment kinds, i.e. the possible entries of the source's
`usedSelectors` array (the strings passed to `errorHandler`). -/
inductive Kind where
  | element
  | id
  | cls
  | attr
  | pseudoClass
  | pseudoElement
deriving DecidableEq, Repr

/-- The rank table `this.order` of `BuilderHelper`'s constructor:
element 0, id 1, class 2, attribute 3, pseudoClass 4, pseudoElement 5. -/
def order : Kind → Nat
  | .element => 0
  | .id => 1
  | .cls => 2
  | .attr => 3
  | .pseudoClass => 4
  | .pseudoElement => 5

/-- `this.uniqueSelectors = ['element', 'id', 'pseudoElement']`. -/
def uniqueSelectors : List Kind := [Kind.element, Kind.id, Kind.pseudoElement]

/-- `this.firstErr`, the exact message string of the constructor (line 132). -/
def firstErr : String :=
  "Element, id and pseudo-element should not occur more then one time inside the selector"

/-- `this.secondErr`, the exact message string of the constructor (line 133). -/
def secondErr : String :=
  "Selector parts should be arranged in the following order: element, id, class, attribute, pseudo-class, pseudo-element"

/-- The mutable instance state of a `BuilderHelper` object: the accumulated
text `res` and the array `usedSelectors` of kinds appended so far. -/
structure BuilderHelper where
  res : String
  usedSelectors : List Kind
deriving DecidableEq, Repr

/-- `new BuilderHelper()`: `res` starts as `''`, `usedSelectors` as `[]`. -/
def mkBuilderHelper : BuilderHelper := { res := "", usedSelectors := [] }

/-- The condition of the second `if` of `errorHandler`:
`this.order[this.usedSelectors.at(-1)] > this.order[selector]`.
When `usedSelectors` is empty, `at(-1)` is `undefined`, `order[undefined]`
is `undefined`, and `undefined > n` is `false` in JS, hence the `none`
branch. -/
def orderViolated (ks : List Kind) (k : Kind) : Bool :=
  match ks.getLast? with
  | none => false
  | some last => decide (order k < order last)

/-- `BuilderHelper.prototype.errorHandler(selector)` (lines 176–191): throw
`firstErr` on a repeated singleton kind, else throw `secondErr` on a rank
decrease against the most recently appended kind, else push `selector`. -/
def BuilderHelper.errorHandler (b : BuilderHelper) (selector : Kind) :
    BuilderHelper × Option String :=
  if b.usedSelectors.contains selector && uniqueSelectors.contains selector then
    (b, some firstErr)
  else if orderViolated b.usedSelectors selector then
    (b, some secondErr)
  else
    ({ b with usedSelectors := b.usedSelectors ++ [selector] }, none)

/-- `stringify()` of `BuilderHelper`: `return this.res`. -/
def BuilderHelper.stringify (b : BuilderHelper) : String := b.res

/-- `element(value)`: validate, then `this.res += value`. -/
def BuilderHelper.element (b : BuilderHelper) (value : String) :
    BuilderHelper × Option String :=
  match b.errorHandler Kind.element with
  | (b2, some e) => (b2, some e)
  | (b2, none) => ({ b2 with res := b2.res ++ value }, none)

/-- `id(value)`: validate, then `this.res += '#' + value`. -/
def BuilderHelper.id (b : BuilderHelper) (value : String) :
    BuilderHelper × Option String :=
  match b.errorHandler Kind.id with
  | (b2, some e) => (b2, some e)
  | (b2, none) => ({ b2 with res := b2.res ++ ("#" ++ value) }, none)

/-- `class(value)`: validate, then `this.res += '.' + value`. -/
def BuilderHelper.cls (b : BuilderHelper) (value : String) :
    BuilderHelper × Option String :=
  match b.errorHandler Kind.cls with
  | (b2, some e) => (b2, some e)
  | (b2, none) => ({ b2 with res := b2.res ++ ("." ++ value) }, none)

/-- `attr(value)`: validate, then `this.res += '[' + value + ']'`. -/
def BuilderHelper.attr (b : BuilderHelper) (value : String) :
    BuilderHelper × Option String :=
  match b.errorHandler Kind.attr with
  | (b2, some e) => (b2, some e)
  | (b2, none) => ({ b2 with res := b2.res ++ ("[" ++ value ++ "]") }, none)

/-- `pseudoClass(value)`: validate, then `this.res += ':' + value`. -/
def BuilderHelper.pseudoClass (b : BuilderHelper) (value : String) :
    BuilderHelper × Option String :=
  match b.errorHandler Kind.pseudoClass with
  | (b2, some e) => (b2, some e)
  | (b2, none) => ({ b2 with res := b2.res ++ (":" ++ value) }, none)

/-- `pseudoElement(value)`: validate, then `this.res += '::' + value`. -/
def BuilderHelper.pseudoElement (b : BuilderHelper) (value : String) :
    BuilderHelper × Option String :=
  match b.errorHandler Kind.pseudoElement with
  | (b2, some e) => (b2, some e)
  | (b2, none) => ({ b2 with res := b2.res ++ ("::" ++ value) }, none)

/-- The rendered punctuation form of one fragment, as each method appends it:
`element` verbatim, `id` with `#`, `class` with `.`, `attr` with brackets,
`pseudoClass` with `:`, `pseudoElement` with `::`. -/
def render (k : Kind) (value : String) : String :=
  match k with
  | .element => value
  | .id => "#" ++ value
  | .cls => "." ++ value
  | .attr => "[" ++ value ++ "]"
  | .pseudoClass => ":" ++ value
  | .pseudoElement => "::" ++ value

/-- Dispatch a fragment-method call of kind `k` with argument `v` on `b`. -/
def applyKind (b : BuilderHelper) (k : Kind) (v : String) :
    BuilderHelper × Option String :=
  match k with
  | .element => b.element v
  | .id => b.id v
  | .cls => b.cls v
  | .attr => b.attr v
  | .pseudoClass => b.pseudoClass v
  | .pseudoElement => b.pseudoElement v

/-- Concatenation of a list of strings, in order, with no separators. -/
def joinAll : List String → String
  | [] => ""
  | s :: rest => s ++ joinAll rest

/-- Run a sequence of fragment-method calls on a builder; a thrown error
aborts the chain (the exception propagates) and is reported with the state
at that point. -/
def runCalls (b : BuilderHelper) : List (Kind × String) → BuilderHelper × Option String
  | [] => (b, none)
  | (k, v) :: rest =>
    match applyKind b k v with
    | (b2, none) => runCalls b2 rest
    | (b2, some e) => (b2, some e)

/-- Builder states reachable through the public interface: a fresh
`new BuilderHelper()` (as every facade factory creates), followed by any
fragment-method calls, whether they succeed or throw (after a throw the
caller still holds the same object). -/
inductive Reachable : BuilderHelper → Prop where
  | init : Reachable mkBuilderHelper
  | step (b : BuilderHelper) (k : Kind) (v : String) :
      Reachable b → Reachable (applyKind b k v).1

/-- The rank ordering relation between consecutive fragment kinds. -/
def rankLe (a b : Kind) : Prop := order a ≤ order b

/-- A value passed to the facade's `combine` as `selector1`/`selector2`:
either a `BuilderHelper` instance (with its own `res`) or the facade object
itself (whose `res` is the shared facade state). -/
inductive SelRef where
  | builder (b : BuilderHelper)
  | facade

/-- JS template-literal coercion of a possibly-`undefined` property:
`${undefined}` renders as the string `"undefined"`. -/
def jsStringOf : Option String → String
  | some s => s
  | none => "undefined"

/-- Reading `.res` of a `SelRef` under facade state `st`. -/
def selRes (st : Option String) : SelRef → Option String
  | SelRef.builder b => some b.res
  | SelRef.facade => st

namespace cssSelectorBuilder

/-- The facade object literal has no `res` property of its own until its
`combine` first assigns one: initially reading it gives `undefined`. -/
def initRes : Option String := none

/-- The facade's `combine(selector1, combinator, selector2)` (lines 200–203):
assigns `this.res` the template string and returns `this` (the facade). -/
def combine (st : Option String) (selector1 : SelRef) (combinator : String)
    (selector2 : SelRef) : Option String × SelRef :=
  (some (jsStringOf (selRes st selector1) ++ " " ++ combinator ++ " " ++
      jsStringOf (selRes st selector2)),
    SelRef.facade)

/-- The facade's own `stringify()` (lines 204–206): `return this.res`. -/
def stringify (st : Option String) : Option String := st

end cssSelectorBuilder

/-- `stringify()` on a combine result, dispatching on whether the reference
is a builder instance or the facade itself. -/
def stringifySel (st : Option String) : SelRef → Option String
  | SelRef.builder b => some b.stringify
  | SelRef.facade => cssSelectorBuilder.stringify st

/-- Every fragment method is `errorHandler` followed, on success, by
appending that kind's rendered fragment to `res`. -/
theorem applyKind_eq (b : BuilderHelper) (k : Kind) (v : String) :
    applyKind b k v =
      match b.errorHandler k with
      | (b2, some e) => (b2, some e)
      | (b2, none) => ({ b2 with res := b2.res ++ render k v }, none) := by
  cases k <;> rfl

theorem errorHandler_ok (b : BuilderHelper) (k : Kind)
    (h1 : (b.usedSelectors.contains k && uniqueSelectors.contains k) = false)
    (h2 : orderViolated b.usedSelectors k = false) :
    b.errorHandler k = ({ b with usedSelectors := b.usedSelectors ++ [k] }, none) := by
  unfold BuilderHelper.errorHandler
  simp only [h1, h2, Bool.false_eq_true, if_false]

theorem errorHandler_fst (b : BuilderHelper) (k : Kind) :
    (b.errorHandler k).1 = b ∨ (b.errorHandler k).2 = none := by
  unfold BuilderHelper.errorHandler
  split
  · left; rfl
  · split
    · left; rfl
    · right; rfl

theorem errorHandler_of_err (b : BuilderHelper) (k : Kind) (e : String)
    (h : (b.errorHandler k).2 = some e) : b.errorHandler k = (b, some e) := by
  rcases hf : b.errorHandler k with ⟨b2, e2⟩
  rw [hf] at h
  simp only at h
  have hside := errorHandler_fst b k
  rw [hf] at hside
  rcases hside with h1 | h1 <;> simp_all

theorem applyKind_ok (b : BuilderHelper) (k : Kind) (v : String)
    (h1 : (b.usedSelectors.contains k && uniqueSelectors.contains k) = false)
    (h2 : orderViolated b.usedSelectors k = false) :
    applyKind b k v =
      ({ res := b.res ++ render k v, usedSelectors := b.usedSelectors ++ [k] }, none) := by
  rw [applyKind_eq, errorHandler_ok b k h1 h2]

theorem applyKind_err (b : BuilderHelper) (k : Kind) (v : String) (e : String)
    (h : (applyKind b k v).2 = some e) : (applyKind b k v).1 = b := by
  rw [applyKind_eq] at h ⊢
  rcases heq : b.errorHandler k with ⟨b2, e2⟩
  rw [heq] at h
  cases e2 with
  | none => simp at h
  | some e3 =>
    have h2 := errorHandler_of_err b k e3 (by rw [heq])
    rw [heq] at h2
    simp_all

theorem joinAll_concat (l : List String) (s : String) :
    joinAll (l ++ [s]) = joinAll l ++ s := by
  induction l with
  | nil => simp [joinAll, String.append_empty, String.empty_append]
  | cons a rest ih => simp [joinAll, ih, String.append_assoc]

theorem errorHandler_of_ok (b : BuilderHelper) (k : Kind) (b2 : BuilderHelper)
    (h : b.errorHandler k = (b2, none)) :
    (b.usedSelectors.contains k && uniqueSelectors.contains k) = false ∧
    orderViolated b.usedSelectors k = false ∧
    b2 = { b with usedSelectors := b.usedSelectors ++ [k] } := by
  unfold BuilderHelper.errorHandler at h
  by_cases hc1 : (b.usedSelectors.contains k && uniqueSelectors.contains k) = true
  · rw [if_pos hc1] at h
    simp at h
  · rw [if_neg hc1] at h
    by_cases hc2 : orderViolated b.usedSelectors k = true
    · rw [if_pos hc2] at h
      simp at h
    · rw [if_neg hc2] at h
      simp only [Bool.not_eq_true] at hc1 hc2
      injection h with hb he
      exact ⟨hc1, hc2, hb.symm⟩

theorem applyKind_of_none (b : BuilderHelper) (k : Kind) (v : String)
    (h : (applyKind b k v).2 = none) :
    (b.usedSelectors.contains k && uniqueSelectors.contains k) = false ∧
    orderViolated b.usedSelectors k = false ∧
    (applyKind b k v).1 =
      { res := b.res ++ render k v, usedSelectors := b.usedSelectors ++ [k] } := by
  rw [applyKind_eq] at h ⊢
  rcases heq : b.errorHandler k with ⟨b2, e2⟩
  rw [heq] at h
  cases e2 with
  | some e3 => simp at h
  | none =>
    obtain ⟨hc1, hc2, hb⟩ := errorHandler_of_ok b k b2 heq
    subst hb
    exact ⟨hc1, hc2, rfl⟩

theorem orderViolated_false_last (ks : List Kind) (k last : Kind)
    (h : orderViolated ks k = false) (hl : ks.getLast? = some last) :
    rankLe last k := by
  unfold orderViolated at h
  rw [hl] at h
  simpa [rankLe, Nat.not_lt] using h

theorem contains_false_left (x y : Bool) (h : (x && y) = false) (hy : y = true) :
    x = false := by
  cases x <;> simp_all

theorem runCalls_ok (calls : List (Kind × String)) :
    ∀ b : BuilderHelper,
      List.Chain' rankLe (b.usedSelectors ++ calls.map Prod.fst) →
      (∀ k ∈ uniqueSelectors, (b.usedSelectors ++ calls.map Prod.fst).count k ≤ 1) →
      runCalls b calls =
        ({ res := b.res ++ joinAll (calls.map fun p => render p.1 p.2),
           usedSelectors := b.usedSelectors ++ calls.map Prod.fst }, none) := by
  induction calls with
  | nil =>
    intro b _ _
    simp [runCalls, joinAll, String.append_empty]
  | cons p rest ih =>
    rcases p with ⟨k, v⟩
    intro b h1 h2
    simp only [List.map_cons] at h1 h2
    have hdup : (b.usedSelectors.contains k && uniqueSelectors.contains k) = false := by
      by_contra hc
      rw [Bool.not_eq_false, Bool.and_eq_true] at hc
      obtain ⟨hc1, hc2⟩ := hc
      have hk1 : k ∈ b.usedSelectors := by simpa using hc1
      have hk2 : k ∈ uniqueSelectors := by simpa using hc2
      have hcount := h2 k hk2
      rw [List.count_append] at hcount
      have hge : 1 ≤ b.usedSelectors.count k := List.count_pos_iff.mpr hk1
      simp only [List.count_cons_self] at hcount
      omega
    have horder : orderViolated b.usedSelectors k = false := by
      unfold orderViolated
      cases hl : b.usedSelectors.getLast? with
      | none => rfl
      | some last =>
        have hch := (List.chain'_append.mp h1).2.2
        have hrel : rankLe last k := by
          apply hch last
          · exact hl
          · simp
        simpa [Nat.not_lt] using hrel
    have happ := applyKind_ok b k v hdup horder
    simp only [runCalls, happ]
    have h1' : List.Chain' rankLe
        ((b.usedSelectors ++ [k]) ++ rest.map Prod.fst) := by
      simpa [List.append_assoc] using h1
    have h2' : ∀ j ∈ uniqueSelectors,
        ((b.usedSelectors ++ [k]) ++ rest.map Prod.fst).count j ≤ 1 := by
      intro j hj
      have := h2 j hj
      simpa [List.append_assoc] using this
    rw [ih { res := b.res ++ render k v, usedSelectors := b.usedSelectors ++ [k] } h1' h2']
    simp [joinAll, String.append_assoc, List.append_assoc]

instance : DecidableRel rankLe :=
  fun a b => inferInstanceAs (Decidable (order a ≤ order b))

theorem applyKind_snd_err (b : BuilderHelper) (k : Kind) (v : String) (e : String)
    (h : (applyKind b k v).2 = some e) : (b.errorHandler k).2 = some e := by
  rw [applyKind_eq] at h
  rcases heq : b.errorHandler k with ⟨b2, e2⟩
  rw [heq] at h
  cases e2 with
  | none => simp at h
  | some e3 => simpa using h

theorem errorHandler_msg (b : BuilderHelper) (k : Kind) (e : String)
    (h : (b.errorHandler k).2 = some e) : e = firstErr ∨ e = secondErr := by
  unfold BuilderHelper.errorHandler at h
  split at h
  · left
    simpa using h.symm
  · split at h
    · right
      simpa using h.symm
    · simp at h

/-- C1: for every call sequence whose kind ranks are non-decreasing and in
which each singleton kind (element, id, pseudo-element) occurs at most once,
the whole chain succeeds and `stringify()` returns exactly the concatenation,
in call order with no separators, of the fragments' rendered forms
(`element v` is `v`, `id v` is `#v`, `class v` is `.v`, `attr v` is `[v]`,
`pseudoClass v` is `:v`, `pseudoElement v` is `::v`). -/
theorem c1_stringify_concat (calls : List (Kind × String))
    (h1 : List.Chain' rankLe (calls.map Prod.fst))
    (h2 : ∀ k ∈ uniqueSelectors, (calls.map Prod.fst).count k ≤ 1) :
    (runCalls mkBuilderHelper calls).2 = none ∧
    BuilderHelper.stringify (runCalls mkBuilderHelper calls).1 =
      joinAll (calls.map fun p => render p.1 p.2) := by
  have hrun := runCalls_ok calls mkBuilderHelper
    (by simpa [mkBuilderHelper] using h1) (by simpa [mkBuilderHelper] using h2)
  rw [hrun]
  simp [BuilderHelper.stringify, mkBuilderHelper, String.empty_append]

/-- Witness for C1: `element('div').id('main').class('container').class('draggable')`
stringifies to the concatenation of rendered fragments. -/
theorem c1_witness :
    (runCalls mkBuilderHelper
      [(Kind.element, "div"), (Kind.id, "main"),
        (Kind.cls, "container"), (Kind.cls, "draggable")]).2 = none ∧
    BuilderHelper.stringify (runCalls mkBuilderHelper
      [(Kind.element, "div"), (Kind.id, "main"),
        (Kind.cls, "container"), (Kind.cls, "draggable")]).1 =
      joinAll ([(Kind.element, "div"), (Kind.id, "main"),
        (Kind.cls, "container"), (Kind.cls, "draggable")].map
          fun p => render p.1 p.2) :=
  c1_stringify_concat _
    (List.Chain'.cons (by decide) (List.Chain'.cons (by decide)
      (List.Chain'.cons (by decide) (List.chain'_singleton _))))
    (by decide)

/-- C2: applying a fragment method of a singleton kind (element, id,
pseudo-element) that already occurs among the applied kinds throws the
duplicate-singleton error `firstErr`, for every builder state — in
particular also when a rank-order violation applies to the same call,
because this check runs first in `errorHandler`. -/
theorem c2_duplicate_singleton_first (b : BuilderHelper) (k : Kind) (v : String)
    (h1 : uniqueSelectors.contains k = true)
    (h2 : b.usedSelectors.contains k = true) :
    applyKind b k v = (b, some firstErr) := by
  rw [applyKind_eq]
  have heh : b.errorHandler k = (b, some firstErr) := by
    unfold BuilderHelper.errorHandler
    rw [if_pos (by rw [h1, h2]; rfl)]
  rw [heh]

/-- Witness for C2: on applied kinds `[element, id]`, calling `element` has
both a duplicate-singleton violation and an order violation (id outranks
element), and the duplicate error is the one thrown. -/
theorem c2_witness :
    applyKind { res := "div#m", usedSelectors := [Kind.element, Kind.id] }
      Kind.element "p" =
    ({ res := "div#m", usedSelectors := [Kind.element, Kind.id] }, some firstErr) :=
  c2_duplicate_singleton_first _ _ _ (by decide) (by decide)

/-- C3 counterexample: the claim's "raises OrderViolationError exactly when
rank(last) > rank(k)" fails when the same call is also a duplicated
singleton: with applied kinds `[element, id]`, applying `element` satisfies
rank(id) > rank(element), yet the error thrown is the duplicate message
`firstErr`, not the order message `secondErr`. -/
theorem c3_counterexample :
    order Kind.id > order Kind.element ∧
    (applyKind { res := "div#m", usedSelectors := [Kind.element, Kind.id] }
      Kind.element "p").2 = some firstErr ∧
    firstErr ≠ secondErr := by
  refine ⟨by decide, rfl, by decide⟩

/-- C3 amended: provided the call is not a duplicated singleton (in which
case the duplicate check fires first), on a non-empty applied-kind sequence
the order error `secondErr` is thrown exactly when the rank of the most
recently appended kind strictly exceeds the rank of the new kind — the
comparison being only against the immediately preceding kind — and the
first fragment applied to a fresh builder never throws the order error. -/
theorem c3_order_violation_iff (b : BuilderHelper) (k : Kind) (v : String)
    (last : Kind) (hlast : b.usedSelectors.getLast? = some last)
    (hdup : (b.usedSelectors.contains k && uniqueSelectors.contains k) = false) :
    ((applyKind b k v).2 = some secondErr ↔ order last > order k) ∧
    (applyKind mkBuilderHelper k v).2 ≠ some secondErr := by
  have hov : orderViolated b.usedSelectors k = true ↔ order last > order k := by
    unfold orderViolated
    rw [hlast]
    simp [gt_iff_lt]
  constructor
  · rw [applyKind_eq]
    unfold BuilderHelper.errorHandler
    rw [if_neg (by rw [hdup]; exact Bool.false_ne_true)]
    by_cases ho : orderViolated b.usedSelectors k = true
    · rw [if_pos ho]
      simp [hov.mp ho]
    · rw [if_neg ho]
      simp only [Bool.not_eq_true] at ho
      have : ¬ order last > order k := fun hc => by
        rw [hov.mpr hc] at ho
        cases ho
      simp [this]
  · rw [applyKind_eq]
    rw [errorHandler_ok mkBuilderHelper k rfl rfl]
    simp

/-- Witness for C3 (amended): on applied kinds `[class]`, applying `id` is
no duplicate, and the order error is thrown since rank(class) > rank(id). -/
theorem c3_witness :
    ((applyKind { res := ".a", usedSelectors := [Kind.cls] } Kind.id "y").2 =
        some secondErr ↔ order Kind.cls > order Kind.id) ∧
    (applyKind mkBuilderHelper Kind.id "y").2 ≠ some secondErr :=
  c3_order_violation_iff _ _ _ Kind.cls rfl (by decide)

/-- C4: the facade's `combine(left, c, right)` yields a result whose
`stringify()` is left's text, a single space, the caller-supplied combinator
string (unvalidated), a single space, and right's text; and feeding the
returned result into a further `combine` composes the texts the same way,
with single-space padding at every nesting level. -/
theorem c4_combine_text (st : Option String) (b1 b2 b3 : BuilderHelper)
    (c c2 : String) :
    stringifySel
        (cssSelectorBuilder.combine st (SelRef.builder b1) c (SelRef.builder b2)).1
        (cssSelectorBuilder.combine st (SelRef.builder b1) c (SelRef.builder b2)).2 =
      some (b1.res ++ " " ++ c ++ " " ++ b2.res) ∧
    stringifySel
        (cssSelectorBuilder.combine
          (cssSelectorBuilder.combine st (SelRef.builder b1) c (SelRef.builder b2)).1
          (cssSelectorBuilder.combine st (SelRef.builder b1) c (SelRef.builder b2)).2
          c2 (SelRef.builder b3)).1
        (cssSelectorBuilder.combine
          (cssSelectorBuilder.combine st (SelRef.builder b1) c (SelRef.builder b2)).1
          (cssSelectorBuilder.combine st (SelRef.builder b1) c (SelRef.builder b2)).2
          c2 (SelRef.builder b3)).2 =
      some ((b1.res ++ " " ++ c ++ " " ++ b2.res) ++ " " ++ c2 ++ " " ++ b3.res) :=
  ⟨rfl, rfl⟩

/-- C5: when a fragment method throws, the builder's accumulated text and
its applied-kind sequence are exactly what they were before the call. -/
theorem c5_atomic_on_error (b : BuilderHelper) (k : Kind) (v : String) (e : String)
    (h : (applyKind b k v).2 = some e) :
    ((applyKind b k v).1).res = b.res ∧
    ((applyKind b k v).1).usedSelectors = b.usedSelectors := by
  rw [applyKind_err b k v e h]
  exact ⟨rfl, rfl⟩

/-- Witness for C5: the failing `id` call on applied kinds `[class]` leaves
both fields untouched. -/
theorem c5_witness :
    ((applyKind { res := ".a", usedSelectors := [Kind.cls] } Kind.id "y").1).res =
      ".a" ∧
    ((applyKind { res := ".a", usedSelectors := [Kind.cls] } Kind.id "y").1).usedSelectors =
      [Kind.cls] :=
  c5_atomic_on_error _ _ _ secondErr rfl

/-- C6: every builder state reachable through the public interface satisfies
the three data-model invariants: non-decreasing ranks of the applied kinds,
at most one occurrence of each singleton kind, and the accumulated text
equal to the ordered concatenation of the appended fragments' rendered
forms. -/
theorem c6_reachable_invariants (b : BuilderHelper) (hb : Reachable b) :
    List.Chain' rankLe b.usedSelectors ∧
    (∀ k ∈ uniqueSelectors, b.usedSelectors.count k ≤ 1) ∧
    ∃ calls : List (Kind × String),
      calls.map Prod.fst = b.usedSelectors ∧
      b.res = joinAll (calls.map fun p => render p.1 p.2) := by
  induction hb with
  | init =>
    exact ⟨List.chain'_nil, by simp [mkBuilderHelper], ⟨[], rfl, rfl⟩⟩
  | step b k v hb ih =>
    obtain ⟨ih1, ih2, calls, hcalls1, hcalls2⟩ := ih
    cases he : (applyKind b k v).2 with
    | some e =>
      rw [applyKind_err b k v e he]
      exact ⟨ih1, ih2, calls, hcalls1, hcalls2⟩
    | none =>
      obtain ⟨hdup, hord, hfst⟩ := applyKind_of_none b k v he
      rw [hfst]
      refine ⟨?_, ?_, calls ++ [(k, v)], ?_, ?_⟩
      · refine List.chain'_append.mpr ⟨ih1, List.chain'_singleton k, ?_⟩
        intro x hx y hy
        simp only [List.head?_cons, Option.mem_def, Option.some.injEq] at hy
        subst hy
        exact orderViolated_false_last b.usedSelectors k x hord (Option.mem_def.mp hx)
      · intro j hj
        rw [List.count_append]
        by_cases hjk : j = k
        · subst hjk
          have hcont : b.usedSelectors.contains j = false :=
            contains_false_left _ _ hdup (by simpa using hj)
          have hnm : j ∉ b.usedSelectors := by simpa using hcont
          have h0 : b.usedSelectors.count j = 0 := List.count_eq_zero.mpr hnm
          simp [h0]
        · have hle := ih2 j hj
          have h1 : List.count j [k] = 0 := by simp [hjk]
          omega
      · simp [hcalls1]
      · simp [List.map_append, joinAll_concat, hcalls2]

/-- Witness for C6 at the reachable state after `element('div')` on a fresh
builder. -/
theorem c6_witness :
    List.Chain' rankLe
      ((applyKind mkBuilderHelper Kind.element "div").1).usedSelectors ∧
    (∀ k ∈ uniqueSelectors,
      ((applyKind mkBuilderHelper Kind.element "div").1).usedSelectors.count k ≤ 1) ∧
    ∃ calls : List (Kind × String),
      calls.map Prod.fst =
        ((applyKind mkBuilderHelper Kind.element "div").1).usedSelectors ∧
      ((applyKind mkBuilderHelper Kind.element "div").1).res =
        joinAll (calls.map fun p => render p.1 p.2) :=
  c6_reachable_invariants _ (Reachable.step _ _ _ Reachable.init)

/-- C7 counterexample: the code's message strings differ from the claim's:
the duplicate message starts with a capital "Element" and reads "more then"
(not "more than"), and the order message starts with a capital "Selector";
both are shown on actually thrown errors. -/
theorem c7_counterexample :
    (BuilderHelper.errorHandler { res := "#x", usedSelectors := [Kind.id] }
      Kind.id).2 = some firstErr ∧
    firstErr ≠ "element, id and pseudo-element should not occur more than one time inside the selector" ∧
    (BuilderHelper.errorHandler { res := ".a", usedSelectors := [Kind.cls] }
      Kind.id).2 = some secondErr ∧
    secondErr ≠ "selector parts should be arranged in the following order: element, id, class, attribute, pseudo-class, pseudo-element" := by
  refine ⟨rfl, by decide, rfl, by decide⟩

/-- C7 amended: every thrown error carries exactly one of the two fixed
constructor strings, which read "Element, id and pseudo-element should not
occur more then one time inside the selector" (capital E, "more then") and
"Selector parts should be arranged in the following order: element, id,
class, attribute, pseudo-class, pseudo-element" (capital S). -/
theorem c7_error_messages (b : BuilderHelper) (k : Kind) (v : String) (e : String)
    (h : (applyKind b k v).2 = some e) :
    e = "Element, id and pseudo-element should not occur more then one time inside the selector" ∨
    e = "Selector parts should be arranged in the following order: element, id, class, attribute, pseudo-class, pseudo-element" := by
  have hm := errorHandler_msg b k e (applyKind_snd_err b k v e h)
  simpa [firstErr, secondErr] using hm

/-- Witness for C7 (amended) at a duplicated `id` call. -/
theorem c7_witness :
    firstErr = "Element, id and pseudo-element should not occur more then one time inside the selector" ∨
    firstErr = "Selector parts should be arranged in the following order: element, id, class, attribute, pseudo-class, pseudo-element" :=
  c7_error_messages { res := "#x", usedSelectors := [Kind.id] } Kind.id "y"
    firstErr rfl

/-- C8: `stringify()` on a builder is a pure read of the accumulated text —
it returns `res` unchanged (so repeated calls return the same string and the
state, which the function cannot touch, is unchanged) — and on a fresh
builder with no fragments appended it returns the empty string. -/
theorem c8_stringify_pure :
    (∀ b : BuilderHelper, b.stringify = b.res) ∧
    mkBuilderHelper.stringify = "" :=
  ⟨fun _ => rfl, rfl⟩

/-- C9: the facade-level `combine` returns the facade singleton itself and
stores the combined text in the shared facade field: after a second
`combine` call, `stringify()` on the value returned by the first call
yields the second call's combined text, not the first's. -/
theorem c9_facade_combine_clobbers (st0 : Option String) (a b x y : BuilderHelper)
    (c1 c2 : String)
    (hne : x.res ++ " " ++ c2 ++ " " ++ y.res ≠ a.res ++ " " ++ c1 ++ " " ++ b.res) :
    stringifySel
        (cssSelectorBuilder.combine
          (cssSelectorBuilder.combine st0 (SelRef.builder a) c1 (SelRef.builder b)).1
          (SelRef.builder x) c2 (SelRef.builder y)).1
        (cssSelectorBuilder.combine st0 (SelRef.builder a) c1 (SelRef.builder b)).2 =
      some (x.res ++ " " ++ c2 ++ " " ++ y.res) ∧
    stringifySel
        (cssSelectorBuilder.combine
          (cssSelectorBuilder.combine st0 (SelRef.builder a) c1 (SelRef.builder b)).1
          (SelRef.builder x) c2 (SelRef.builder y)).1
        (cssSelectorBuilder.combine st0 (SelRef.builder a) c1 (SelRef.builder b)).2 ≠
      some (a.res ++ " " ++ c1 ++ " " ++ b.res) := by
  refine ⟨rfl, ?_⟩
  intro hcontra
  exact hne (Option.some.inj hcontra)

/-- Witness for C9 with two concrete combine calls whose texts differ. -/
theorem c9_witness :
    stringifySel
        (cssSelectorBuilder.combine
          (cssSelectorBuilder.combine none
            (SelRef.builder { res := "p", usedSelectors := [] }) "+"
            (SelRef.builder { res := "q", usedSelectors := [] })).1
          (SelRef.builder { res := "u", usedSelectors := [] }) "~"
          (SelRef.builder { res := "v", usedSelectors := [] })).1
        (cssSelectorBuilder.combine none
          (SelRef.builder { res := "p", usedSelectors := [] }) "+"
          (SelRef.builder { res := "q", usedSelectors := [] })).2 =
      some ("u" ++ " " ++ "~" ++ " " ++ "v") ∧
    stringifySel
        (cssSelectorBuilder.combine
          (cssSelectorBuilder.combine none
            (SelRef.builder { res := "p", usedSelectors := [] }) "+"
            (SelRef.builder { res := "q", usedSelectors := [] })).1
          (SelRef.builder { res := "u", usedSelectors := [] }) "~"
          (SelRef.builder { res := "v", usedSelectors := [] })).1
        (cssSelectorBuilder.combine none
          (SelRef.builder { res := "p", usedSelectors := [] }) "+"
          (SelRef.builder { res := "q", usedSelectors := [] })).2 ≠
      some ("p" ++ " " ++ "+" ++ " " ++ "q") :=
  c9_facade_combine_clobbers none
    { res := "p", usedSelectors := [] } { res := "q", usedSelectors := [] }
    { res := "u", usedSelectors := [] } { res := "v", usedSelectors := [] }
    "+" "~" (by decide)

/-- C10: `stringify()` called directly on the facade object before any
`combine` call reads the never-assigned facade `res` property: the result is
the absent value (JS `undefined`), not the empty string. -/
theorem c10_facade_stringify_uninitialized :
    cssSelectorBuilder.stringify cssSelectorBuilder.initRes = none ∧
    cssSelectorBuilder.stringify cssSelectorBuilder.initRes ≠ some "" :=
  ⟨rfl, by simp [cssSelectorBuilder.stringify, cssSelectorBuilder.initRes]⟩

end CssSelector
